import Mathlib

/-!
Verification of the client-side telemetry agent of open-observability.

The definitions below are a shallow embedding of the TypeScript sources:

* `src/packages/tracker/src/transport.ts` — the batching transport
  (`Transport.enqueue`, `Transport.scheduleFlush`, `Transport.flush`,
  `Transport.sendViaBeacon`, `Transport.sendViaFetch`, `Transport.buildUrl`);
* `src/packages/tracker/src/utils.ts` — `truncate` and the web-vitals
  collectors (`collectLCP`, `collectCLS`, `collectINP`, `collectTTFB`,
  `rate`, `THRESHOLDS`);
* the core tracker (`Tracker.init`, `Tracker.trackPageView`,
  `Tracker.trackEvent`, `Tracker.onRouteChange`, `Tracker.setupErrorTracking`).

Times and metric values are rationals (the source uses JS numbers only for
ordering, addition and comparison here); strings whose length matters are
lists of characters; the single-threaded event-loop callbacks are modelled
as explicit state-transition functions folded over event lists.
-/

namespace OpenObs

/-! ## Transport configuration (`TrackerConfig` in transport.ts) -/

/-- The slice of `TrackerConfig` the transport reads: endpoint, optional API
key, extra headers, optional batch size and flush interval. -/
structure TrackerConfig where
  endpoint : String
  apiKey : Option String := none
  extraHeaders : List (String × String) := []
  batchSize : Option Nat := none
  flushInterval : Option Nat := none
deriving Repr, DecidableEq

/-- The effective batch size: `this.config.batchSize ?? 10` in `Transport.enqueue`. -/
def effBatchSize (c : TrackerConfig) : Nat :=
  c.batchSize.getD 10

/-- The effective flush interval: `this.config.flushInterval ?? 5000` in `Transport.scheduleFlush`. -/
def effFlushInterval (c : TrackerConfig) : Nat :=
  c.flushInterval.getD 5000

/-! ## Transport state and operations -/

/-- The mutable fields of class `Transport`: the queue of pending events and
the flush timer (`null` or a pending timeout; for an armed timer we record
the instant at which it is due, which the code fixes at arming time). -/
structure TransportState (α : Type) where
  queue : List α
  timer : Option Nat
deriving Repr, DecidableEq

/-- Fresh transport: empty queue, no timer armed. -/
def initTransport (α : Type) : TransportState α :=
  { queue := [], timer := none }

/-- The URL built by `Transport.buildUrl`: the endpoint URL, with the API key attached as the
`apikey` query parameter when one is configured. -/
structure BuiltUrl where
  base : String
  queryParams : List (String × String)
deriving Repr, DecidableEq

/-- Embedding of `Transport.buildUrl` from transport.ts. -/
def buildUrl (c : TrackerConfig) : BuiltUrl :=
  { base := c.endpoint,
    queryParams :=
      match c.apiKey with
      | some k => [("apikey", k)]
      | none => [] }

/-- Headers assembled by `Transport.sendViaFetch`: `Content-Type`, the
user-supplied extra headers, and — when an API key is configured — an
`Authorization` bearer header plus a secondary `apikey` header. -/
def fetchHeaders (c : TrackerConfig) : List (String × String) :=
  let base := ("Content-Type", "application/json") :: c.extraHeaders
  match c.apiKey with
  | some k => base ++ [("Authorization", "Bearer " ++ k), ("apikey", k)]
  | none => base

/-- The delivery mechanism chosen at flush time: a beacon (URL only, no
headers, fire-and-forget) or a fetch request with headers and a keepalive
flag. -/
inductive Mechanism where
  | beacon (url : BuiltUrl)
  | fetchReq (url : String) (reqHeaders : List (String × String)) (keepalive : Bool)
deriving Repr, DecidableEq

/-- The `useBeacon` test in `Transport.flush`: the document's visibility
state is `hidden` and `navigator.sendBeacon` is a function. -/
def selectMechanism (c : TrackerConfig) (hidden beaconAvail : Bool) : Mechanism :=
  if hidden && beaconAvail then
    Mechanism.beacon (buildUrl c)
  else
    Mechanism.fetchReq c.endpoint (fetchHeaders c) true

/-- Embedding of `Transport.flush`: cancel any pending timer; if the queue is empty do
nothing more; otherwise splice out the whole queue and hand it (in order) to
the chosen delivery mechanism. Returns the new state and the batch sent, if
any. -/
def flush {α : Type} (c : TrackerConfig) (hidden beaconAvail : Bool)
    (s : TransportState α) : TransportState α × Option (List α × Mechanism) :=
  let s1 : TransportState α := { s with timer := none }
  if s1.queue.length = 0 then
    (s1, none)
  else
    ({ s1 with queue := [] }, some (s1.queue, selectMechanism c hidden beaconAvail))

/-- Embedding of `Transport.scheduleFlush`: a no-op when a timer is already armed;
otherwise arms a timer due `flushInterval` (default 5000 ms) from now. -/
def scheduleFlush {α : Type} (c : TrackerConfig) (now : Nat)
    (s : TransportState α) : TransportState α :=
  match s.timer with
  | some _ => s
  | none => { s with timer := some (now + effFlushInterval c) }

/-- Embedding of `Transport.enqueue`: push the event; flush immediately when the queue
has reached `batchSize` (default 10), otherwise schedule a flush. -/
def enqueue {α : Type} (c : TrackerConfig) (hidden beaconAvail : Bool)
    (now : Nat) (e : α) (s : TransportState α) :
    TransportState α × Option (List α × Mechanism) :=
  let s1 : TransportState α := { s with queue := s.queue ++ [e] }
  if effBatchSize c ≤ s1.queue.length then
    flush c hidden beaconAvail s1
  else
    (scheduleFlush c now s1, none)

/-! ## Traces of transport operations -/

/-- An externally triggered transport operation: an `enqueue` or a call to
`flush` (from the timer, the size threshold is internal to `enqueue`, a
visibility change, pagehide, or the public `flush()`). -/
inductive Op (α : Type) where
  | enq (e : α)
  | doFlush
deriving Repr, DecidableEq

/-- One transport operation step. -/
def stepOp {α : Type} (c : TrackerConfig) (hidden beaconAvail : Bool)
    (s : TransportState α) : Op α → TransportState α × Option (List α × Mechanism)
  | Op.enq e => enqueue c hidden beaconAvail 0 e s
  | Op.doFlush => flush c hidden beaconAvail s

/-- Run a list of transport operations, collecting every batch that was
handed to the delivery mechanism, in the order the flushes happened. -/
def runOps {α : Type} (c : TrackerConfig) (hidden beaconAvail : Bool) :
    TransportState α → List (Op α) → TransportState α × List (List α)
  | s, [] => (s, [])
  | s, op :: ops =>
      let r := stepOp c hidden beaconAvail s op
      let rest := runOps c hidden beaconAvail r.1 ops
      (rest.1, (match r.2 with | some b => [b.1] | none => []) ++ rest.2)

/-- The events enqueued by a list of operations, in order. -/
def enqueuedOf {α : Type} : List (Op α) → List α
  | [] => []
  | Op.enq e :: ops => e :: enqueuedOf ops
  | Op.doFlush :: ops => enqueuedOf ops

/-- The batches produced by one operation (none, or the flushed queue). -/
def batchesOf {α : Type} (r : Option (List α × Mechanism)) : List (List α) :=
  match r with
  | some b => [b.1]
  | none => []

/-! ## Send outcomes (`sendViaFetch` / `sendViaBeacon`) -/

/-- The observable outcome of the browser `fetch` call: the promise rejects
(network failure) or resolves with a response whose `ok`/`status` fields are
only inspected for an optional debug log. -/
inductive FetchOutcome where
  | netError (msg : String)
  | response (ok : Bool) (status : Nat)
deriving Repr, DecidableEq

/-- The body of the `try` block in `Transport.sendViaFetch`: a rejected
fetch is a thrown error; a resolved response never throws, a non-2xx status
at most produces a debug log line. -/
def fetchTryBlock (debug : Bool) (o : FetchOutcome) : Except String (List String) :=
  match o with
  | FetchOutcome.netError msg => Except.error msg
  | FetchOutcome.response ok status =>
      Except.ok (if !ok && debug then ["ingestion failed: " ++ toString status] else [])

/-- Embedding of `Transport.sendViaFetch`: the whole body runs inside try/catch, so a
thrown error is swallowed (optionally logged) and nothing propagates to the
caller. The value is the list of debug log lines. -/
def sendViaFetch (debug : Bool) (o : FetchOutcome) : Except String (List String) :=
  match fetchTryBlock debug o with
  | Except.ok logs => Except.ok logs
  | Except.error msg => Except.ok (if debug then ["fetch error: " ++ msg] else [])

/-- The observable outcome of `navigator.sendBeacon`: it throws, or returns
a boolean acceptance flag. -/
inductive BeaconOutcome where
  | threw (msg : String)
  | returned (success : Bool)
deriving Repr, DecidableEq

/-- The body of the `try` block in `Transport.sendViaBeacon`: a `false`
return only produces a debug warning. -/
def beaconTryBlock (debug : Bool) (o : BeaconOutcome) : Except String (List String) :=
  match o with
  | BeaconOutcome.threw msg => Except.error msg
  | BeaconOutcome.returned success =>
      Except.ok (if !success && debug then ["sendBeacon failed, events may be lost"] else [])

/-- Embedding of `Transport.sendViaBeacon`: try/catch wrapped, never propagates. -/
def sendViaBeacon (debug : Bool) (o : BeaconOutcome) : Except String (List String) :=
  match beaconTryBlock debug o with
  | Except.ok logs => Except.ok logs
  | Except.error msg => Except.ok (if debug then ["sendBeacon error: " ++ msg] else [])

/-- Composition of `Transport.flush` and the actual send on the chosen path, with
the environment's outcome for each path supplied explicitly. Returns the
post-flush transport state and the result of the send. -/
def flushAndSend {α : Type} (c : TrackerConfig) (hidden beaconAvail debug : Bool)
    (s : TransportState α) (fo : FetchOutcome) (bo : BeaconOutcome) :
    TransportState α × Except String (List String) :=
  let r := flush c hidden beaconAvail s
  match r.2 with
  | none => (r.1, Except.ok [])
  | some (_, Mechanism.beacon _) => (r.1, sendViaBeacon debug bo)
  | some (_, Mechanism.fetchReq _ _ _) => (r.1, sendViaFetch debug fo)

/-! ## Web-vitals: ratings (`rate`, `THRESHOLDS` in the vitals module) -/

/-- The three-level metric rating. -/
inductive Rating where
  | good
  | needsImprovement
  | poor
deriving Repr, DecidableEq

/-- The `THRESHOLDS` table (web.dev vitals thresholds). -/
def thresholdsFor : String → Option (ℚ × ℚ)
  | "LCP" => some (2500, 4000)
  | "FID" => some (100, 300)
  | "CLS" => some (1/10, 1/4)
  | "FCP" => some (1800, 3000)
  | "TTFB" => some (800, 1800)
  | "INP" => some (200, 500)
  | _ => none

/-- The `rate` function: good up to and including the first threshold,
needs-improvement up to and including the second, poor beyond. -/
def rateMetric (name : String) (value : ℚ) : Rating :=
  match thresholdsFor name with
  | none => Rating.good
  | some (t1, t2) =>
      if value ≤ t1 then Rating.good
      else if value ≤ t2 then Rating.needsImprovement
      else Rating.poor

/-- An emitted web-vital metric (name, value, rating). -/
structure Metric where
  name : String
  value : ℚ
  rating : Rating
deriving Repr, DecidableEq

/-! ## LCP collector (`collectLCP`) -/

/-- The emission of `collectLCP.report`: only when a candidate was observed
(`lastValue > 0`). -/
def lcpReportMetric (lastValue : ℚ) : Option Metric :=
  if 0 < lastValue then
    some { name := "LCP", value := lastValue, rating := rateMetric "LCP" lastValue }
  else
    none

/-- A page-lifecycle event seen by `collectLCP`: a largest-contentful-paint
observer entry (carrying its `startTime`), a visibility change to hidden, a
visibility change back to visible, or `pagehide`. -/
inductive VisEvent where
  | lcpEntry (startTime : ℚ)
  | visibilityHidden
  | visibilityVisible
  | pagehide
deriving Repr, DecidableEq

/-- Whether an event is an observer candidate entry. -/
def VisEvent.isCandidate : VisEvent → Bool
  | VisEvent.lcpEntry _ => true
  | _ => false

/-- The mutable state of `collectLCP` plus the record of every callback
invocation it has made. -/
structure LCPState where
  lastValue : ℚ
  emitted : List Metric
deriving Repr, DecidableEq

/-- Initial LCP collector state. -/
def lcpInit : LCPState := { lastValue := 0, emitted := [] }

/-- One `collectLCP` event: an observer entry updates `lastValue`; a hidden
visibility change or `pagehide` runs `report` (which emits whenever
`lastValue > 0` — the listeners stay attached, there is no once-only
guard); a change back to visible does nothing. -/
def lcpStep (s : LCPState) : VisEvent → LCPState
  | VisEvent.lcpEntry t => { s with lastValue := t }
  | VisEvent.visibilityHidden =>
      match lcpReportMetric s.lastValue with
      | some m => { s with emitted := s.emitted ++ [m] }
      | none => s
  | VisEvent.visibilityVisible => s
  | VisEvent.pagehide =>
      match lcpReportMetric s.lastValue with
      | some m => { s with emitted := s.emitted ++ [m] }
      | none => s

/-- Run `collectLCP` over a sequence of page-lifecycle events. -/
def lcpRun : LCPState → List VisEvent → LCPState :=
  List.foldl lcpStep

/-! ## CLS collector (`collectCLS`) -/

/-- A `layout-shift` performance entry. -/
structure ShiftEntry where
  startTime : ℚ
  value : ℚ
  hadRecentInput : Bool
deriving Repr, DecidableEq

/-- The mutable state of `collectCLS`: the running maximum `clsValue`, the
current window's sum `sessionValue` and entries `sessionEntries`. The
`closedWindows` field additionally records every window that was closed, so
the windowing itself can be stated. -/
structure CLSState where
  clsValue : ℚ
  sessionValue : ℚ
  sessionEntries : List ShiftEntry
  closedWindows : List (List ShiftEntry)
deriving Repr, DecidableEq

/-- Initial CLS collector state. -/
def clsInit : CLSState :=
  { clsValue := 0, sessionValue := 0, sessionEntries := [], closedWindows := [] }

/-- One layout-shift observer entry for `collectCLS`: shifts with recent
input are ignored; a shift starts a new window when the current window is
non-empty and either the gap since its last entry exceeds 1000 ms or the
span since its first entry exceeds 5000 ms; closing a window folds its sum
into the running maximum. The entry is then appended to the (possibly
fresh) current window. -/
def clsStep (s : CLSState) (entry : ShiftEntry) : CLSState :=
  if entry.hadRecentInput then s
  else
    let startNew : Bool :=
      match s.sessionEntries.head?, s.sessionEntries.getLast? with
      | some first, some last =>
          decide (1000 < entry.startTime - last.startTime) ||
            decide (5000 < entry.startTime - first.startTime)
      | _, _ => false
    let s1 :=
      if startNew then
        { clsValue := if s.clsValue < s.sessionValue then s.sessionValue else s.clsValue,
          sessionValue := 0,
          sessionEntries := [],
          closedWindows := s.closedWindows ++ [s.sessionEntries] }
      else s
    { s1 with
      sessionEntries := s1.sessionEntries ++ [entry],
      sessionValue := s1.sessionValue + entry.value }

/-- Run `collectCLS` over a list of layout-shift entries. -/
def clsRun : CLSState → List ShiftEntry → CLSState :=
  List.foldl clsStep

/-- The value `report` finalizes: the running maximum, updated once more
with the still-open window's sum. -/
def clsFinalValue (s : CLSState) : ℚ :=
  if s.clsValue < s.sessionValue then s.sessionValue else s.clsValue

/-- The emission of `collectCLS.report`: only when the final value is
positive. -/
def clsReportMetric (s : CLSState) : Option Metric :=
  if 0 < clsFinalValue s then
    some { name := "CLS", value := clsFinalValue s,
           rating := rateMetric "CLS" (clsFinalValue s) }
  else
    none

/-- The sum of the shift values of one session window. -/
def windowSum (w : List ShiftEntry) : ℚ :=
  (w.map ShiftEntry.value).sum

/-! ## INP and TTFB collectors (`collectINP`, `collectTTFB`) -/

/-- One event-timing entry for `collectINP`: entries with a (truthy)
`processingStart` update the maximum observed duration. -/
def inpStep (maxDuration : ℚ) (processingStart duration : ℚ) : ℚ :=
  if processingStart ≠ 0 then
    (if maxDuration < duration then duration else maxDuration)
  else maxDuration

/-- The emission of `collectINP.report`: only when a positive duration was
observed. -/
def inpReportMetric (maxDuration : ℚ) : Option Metric :=
  if 0 < maxDuration then
    some { name := "INP", value := maxDuration,
           rating := rateMetric "INP" maxDuration }
  else
    none

/-- The emission of `collectTTFB` from the navigation timing entry:
`responseStart - requestStart`, emitted only when non-negative. -/
def ttfbReportMetric (responseStart requestStart : ℚ) : Option Metric :=
  let ttfb := responseStart - requestStart
  if 0 ≤ ttfb then
    some { name := "TTFB", value := ttfb, rating := rateMetric "TTFB" ttfb }
  else
    none

/-! ## Error records (`truncate`, `Tracker.setupErrorTracking`) -/

/-- Embedding of `truncate` from utils.ts, on strings as character lists: short strings
pass through; longer ones are cut at `maxLength` and get a `...` suffix. -/
def truncate (str : List Char) (maxLength : Nat) : List Char :=
  if str.length ≤ maxLength then str else str.take maxLength ++ ['.', '.', '.']

/-- The bounded-length fields of an emitted `Error` record. -/
structure ErrorRecord where
  message : List Char
  stack : Option (List Char)
deriving Repr, DecidableEq

/-- The `'Unknown error'` fallback used when the event's message is falsy. -/
def unknownErrorMessage : List Char := "Unknown error".data

/-- The `Error` record built by the `error` listener in
`Tracker.setupErrorTracking`: `truncate(message || 'Unknown error', 1000)`
and, when a (truthy) stack is present, `truncate(stack, 2000)`. -/
def buildErrorRecord (message : List Char) (stack : Option (List Char)) : ErrorRecord :=
  { message := truncate (if message.isEmpty then unknownErrorMessage else message) 1000,
    stack :=
      match stack with
      | some st => if st.isEmpty then none else some (truncate st 2000)
      | none => none }

/-! ## Page-view emission on route changes (`Tracker.onRouteChange`) -/

/-- The state of the page-view path: the document's current pathname, the
tracker's `lastPathname`, the number of 100 ms deferred `trackPageView`
callbacks still pending, and the pathname carried by each emitted
`PageView` record. -/
structure PageViewState where
  currentPath : String
  lastPathname : String
  pendingTimeouts : Nat
  emitted : List String
deriving Repr, DecidableEq

/-- Embedding of `Tracker.trackPageView`: record the current pathname as
`lastPathname` and emit a `PageView` record for it. -/
def trackPageView (s : PageViewState) : PageViewState :=
  { s with lastPathname := s.currentPath, emitted := s.emitted ++ [s.currentPath] }

/-- A navigation action: a route-change notification (pushState,
replaceState or popstate — the URL is already updated when
`onRouteChange` runs), or the expiry of the earliest pending 100 ms
deferred `trackPageView` timeout. An action sequence lists these in the
order the event loop runs them; a notification that arrives within 100 ms
of an earlier one precedes that one's `fireDeferred`. -/
inductive NavAction where
  | notif (path : String)
  | fireDeferred
deriving Repr, DecidableEq

/-- One navigation step. `notif p` performs the history mutation (the
current pathname becomes `p`) and then runs `Tracker.onRouteChange`, which
compares the new pathname against `lastPathname` and, when they differ,
schedules a deferred `trackPageView`. `fireDeferred` runs the earliest
pending deferred callback. -/
def navStep (s : PageViewState) : NavAction → PageViewState
  | NavAction.notif p =>
      let s1 := { s with currentPath := p }
      if s1.currentPath ≠ s1.lastPathname then
        { s1 with pendingTimeouts := s1.pendingTimeouts + 1 }
      else s1
  | NavAction.fireDeferred =>
      match s.pendingTimeouts with
      | 0 => s
      | n + 1 => trackPageView { s with pendingTimeouts := n }

/-- Run a sequence of navigation actions. -/
def navRun : PageViewState → List NavAction → PageViewState :=
  List.foldl navStep

/-- The state right after `setupPageViewTracking`'s initial synchronous
`trackPageView` on a page at pathname `p`. -/
def navInit (p : String) : PageViewState :=
  { currentPath := p, lastPathname := p, pendingTimeouts := 0, emitted := [p] }

/-! ## Tracker initialization and Do-Not-Track (`Tracker.init`) -/

/-- The per-feature flags of the tracker configuration, with the
constructor's defaults. -/
structure TrackerOptions where
  respectDNT : Bool := true
  autoPageViews : Bool := true
  autoWebVitals : Bool := true
  autoErrors : Bool := true
deriving Repr, DecidableEq

/-- The collectors `Tracker.init` can install. -/
inductive Collector where
  | pageViews
  | webVitals
  | errors
deriving Repr, DecidableEq

/-- The record kinds the tracker enqueues on the paths modelled here. -/
inductive TrackerEvent where
  | pageview (path : String)
  | custom (eventName : String)
deriving Repr, DecidableEq

/-- Tracker state: the `initialized` flag, the installed collectors, and
the transport. -/
structure TrackerState where
  initialized : Bool
  collectors : List Collector
  transport : TransportState TrackerEvent
deriving Repr, DecidableEq

/-- A freshly constructed tracker: not initialized, no collectors, empty
transport. -/
def trackerStart : TrackerState :=
  { initialized := false, collectors := [], transport := initTransport TrackerEvent }

/-- The browser environment the tracker observes. -/
structure BrowserEnv where
  isBrowser : Bool
  dntEnabled : Bool
  hidden : Bool
  beaconAvail : Bool
deriving Repr, DecidableEq

/-- The collectors installed by `Tracker.init` once past its guards. -/
def installCollectors (opts : TrackerOptions) : List Collector :=
  (if opts.autoPageViews then [Collector.pageViews] else []) ++
    (if opts.autoWebVitals then [Collector.webVitals] else []) ++
      (if opts.autoErrors then [Collector.errors] else [])

/-- Embedding of `Tracker.init`: bail out when not in a browser, when already
initialized, or when `respectDNT` is set and the browser reports DNT (this
check runs before any collector is installed). Otherwise set
`initialized`, install the collectors, and — when page views are on — emit
the initial page view through the transport. Returns the new state and
any batches handed to delivery. -/
def trackerInit (opts : TrackerOptions) (env : BrowserEnv) (c : TrackerConfig)
    (path : String) (s : TrackerState) : TrackerState × List (List TrackerEvent) :=
  if !env.isBrowser then (s, [])
  else if s.initialized then (s, [])
  else if opts.respectDNT && env.dntEnabled then (s, [])
  else
    let s1 : TrackerState :=
      { s with initialized := true, collectors := installCollectors opts }
    if opts.autoPageViews then
      let r := enqueue c env.hidden env.beaconAvail 0 (TrackerEvent.pageview path) s1.transport
      ({ s1 with transport := r.1 }, batchesOf r.2)
    else (s1, [])

/-- Embedding of `Tracker.trackEvent`: a no-op before initialization; otherwise builds a
custom record and enqueues it. -/
def trackEvent (env : BrowserEnv) (c : TrackerConfig) (eventName : String)
    (s : TrackerState) : TrackerState × List (List TrackerEvent) :=
  if !s.initialized then (s, [])
  else
    let r := enqueue c env.hidden env.beaconAvail 0 (TrackerEvent.custom eventName) s.transport
    ({ s with transport := r.1 }, batchesOf r.2)

/-- Embedding of `Tracker.trackPageView` called manually: a no-op before
initialization; otherwise enqueues a `PageView` record. -/
def trackPageViewManual (env : BrowserEnv) (c : TrackerConfig) (path : String)
    (s : TrackerState) : TrackerState × List (List TrackerEvent) :=
  if !s.initialized then (s, [])
  else
    let r := enqueue c env.hidden env.beaconAvail 0 (TrackerEvent.pageview path) s.transport
    ({ s with transport := r.1 }, batchesOf r.2)

/-- Embedding of `Tracker.flush` (also run by the transport's own visibilitychange and
pagehide listeners): flush the transport. -/
def trackerFlush (env : BrowserEnv) (c : TrackerConfig) (s : TrackerState) :
    TrackerState × List (List TrackerEvent) :=
  let r := flush c env.hidden env.beaconAvail s.transport
  ({ s with transport := r.1 }, batchesOf r.2)

/-- The public and lifecycle entry points of the tracker. -/
inductive TrackerOp where
  | initOp (path : String)
  | trackEventOp (eventName : String)
  | trackPageViewOp (path : String)
  | flushOp
  | pageHiddenOp
deriving Repr, DecidableEq

/-- One tracker operation. -/
def trackerStep (opts : TrackerOptions) (env : BrowserEnv) (c : TrackerConfig)
    (s : TrackerState) : TrackerOp → TrackerState × List (List TrackerEvent)
  | TrackerOp.initOp path => trackerInit opts env c path s
  | TrackerOp.trackEventOp eventName => trackEvent env c eventName s
  | TrackerOp.trackPageViewOp path => trackPageViewManual env c path s
  | TrackerOp.flushOp => trackerFlush env c s
  | TrackerOp.pageHiddenOp => trackerFlush env c s

/-- Run a sequence of tracker operations, collecting every batch that was
handed to delivery. -/
def trackerRun (opts : TrackerOptions) (env : BrowserEnv) (c : TrackerConfig) :
    TrackerState → List TrackerOp → TrackerState × List (List TrackerEvent)
  | s, [] => (s, [])
  | s, op :: ops =>
      let r := trackerStep opts env c s op
      let rest := trackerRun opts env c r.1 ops
      (rest.1, r.2 ++ rest.2)

/-! ## Helper lemmas -/

/-- Lemma: `scheduleFlush` never touches the queue. -/
theorem scheduleFlush_queue {α : Type} (c : TrackerConfig) (now : Nat)
    (s : TransportState α) : (scheduleFlush c now s).queue = s.queue := by
  cases h : s.timer <;> simp [scheduleFlush, h]

/-- Lemma: `sendViaFetch` always returns normally. -/
theorem sendViaFetch_ok (debug : Bool) (o : FetchOutcome) :
    ∃ logs, sendViaFetch debug o = Except.ok logs := by
  cases o <;> simp [sendViaFetch, fetchTryBlock]

/-- Lemma: `sendViaBeacon` always returns normally. -/
theorem sendViaBeacon_ok (debug : Bool) (o : BeaconOutcome) :
    ∃ logs, sendViaBeacon debug o = Except.ok logs := by
  cases o <;> simp [sendViaBeacon, beaconTryBlock]

/-- After a flush the queue is always empty. -/
theorem flush_queue_empty {α : Type} (c : TrackerConfig) (hid bav : Bool)
    (s : TransportState α) : (flush c hid bav s).1.queue = [] := by
  by_cases h : s.queue.length = 0
  · simp only [flush, h, if_pos]
    exact List.length_eq_zero.mp h
  · simp [flush, h]

/-- Conservation: over any run, the flushed batches followed by the final
queue are exactly the initial queue followed by the enqueued events. -/
theorem runOps_conservation {α : Type} (c : TrackerConfig) (hid bav : Bool)
    (ops : List (Op α)) (s : TransportState α) :
    (runOps c hid bav s ops).2.flatten ++ (runOps c hid bav s ops).1.queue
      = s.queue ++ enqueuedOf ops := by
  induction ops generalizing s with
  | nil => simp [runOps, enqueuedOf]
  | cons op ops ih =>
    cases op with
    | doFlush =>
      by_cases h : s.queue.length = 0
      · have hq : s.queue = [] := List.length_eq_zero.mp h
        simp [runOps, stepOp, flush, h, ih, enqueuedOf, hq]
      · simp [runOps, stepOp, flush, h, ih, enqueuedOf]
    | enq e =>
      simp only [runOps, stepOp, enqueue]
      by_cases h : effBatchSize c ≤ s.queue.length + 1
      · have h' : effBatchSize c ≤ (s.queue ++ [e]).length := by simpa using h
        simp only [List.length_append, List.length_singleton] at h' ⊢
        rw [if_pos h']
        simp [flush, ih, enqueuedOf]
      · have h' : ¬ effBatchSize c ≤ (s.queue ++ [e]).length := by simpa using h
        simp only [List.length_append, List.length_singleton] at h' ⊢
        rw [if_neg h']
        simp [ih, scheduleFlush_queue, enqueuedOf]

/-- The number of batches containing an element is at most its count in the
concatenation of the batches. -/
theorem countP_mem_le_count_flatten {α : Type} [DecidableEq α]
    (batches : List (List α)) (e : α) :
    batches.countP (fun b => decide (e ∈ b)) ≤ batches.flatten.count e := by
  induction batches with
  | nil => simp
  | cons b bs ih =>
    rw [List.countP_cons, List.flatten_cons, List.count_append]
    have hcase : (if (decide (e ∈ b)) = true then 1 else 0) ≤ b.count e := by
      by_cases hb : e ∈ b
      · simp [hb, List.count_pos_iff.mpr hb]
      · simp [hb]
    omega

/-! ## Claim theorems -/

/-- C2: `flush` cancels the pending timer, removes exactly the queued
records and hands them in enqueue order to delivery, leaving the queue
empty; with an empty queue it performs no send. Over any run from a fresh
transport, the flushed batches followed by the remaining queue are exactly
the enqueued records in order, so when the enqueued records are pairwise
distinct each is contained in at most one flushed batch. -/
theorem C2_flush_atomic {α : Type} [DecidableEq α] (c : TrackerConfig)
    (hid bav : Bool) (s : TransportState α) (ops : List (Op α))
    (h : (enqueuedOf ops).Nodup) :
    (flush c hid bav s).1.timer = none ∧
    (flush c hid bav s).1.queue = [] ∧
    (s.queue ≠ [] → (flush c hid bav s).2 = some (s.queue, selectMechanism c hid bav)) ∧
    (s.queue = [] → (flush c hid bav s).2 = none) ∧
    (runOps c hid bav (initTransport α) ops).2.flatten ++
        (runOps c hid bav (initTransport α) ops).1.queue = enqueuedOf ops ∧
    ∀ e : α, (runOps c hid bav (initTransport α) ops).2.countP
        (fun b => decide (e ∈ b)) ≤ 1 := by
  have hcons : (runOps c hid bav (initTransport α) ops).2.flatten ++
      (runOps c hid bav (initTransport α) ops).1.queue = enqueuedOf ops := by
    simpa [initTransport] using runOps_conservation c hid bav ops (initTransport α)
  refine ⟨?_, flush_queue_empty c hid bav s, ?_, ?_, hcons, ?_⟩
  · by_cases hq : s.queue.length = 0 <;> simp [flush, hq]
  · intro hne
    have hq : ¬ s.queue.length = 0 := fun hl => hne (List.length_eq_zero.mp hl)
    simp [flush, hq]
  · intro he
    simp [flush, he]
  · intro e
    have hle := countP_mem_le_count_flatten ((runOps c hid bav (initTransport α) ops).2) e
    have hcount : ((runOps c hid bav (initTransport α) ops).2.flatten).count e ≤
        (enqueuedOf ops).count e := by
      rw [← hcons, List.count_append]
      omega
    have hnd : (enqueuedOf ops).count e ≤ 1 := List.nodup_iff_count_le_one.mp h e
    omega

/-- C2 witness: a concrete run with distinct records. -/
theorem C2_flush_atomic_witness :
    (runOps { endpoint := "https://collect.example" } false false
        (initTransport Nat) [Op.enq 1, Op.doFlush, Op.enq 2]).2.countP
      (fun b => decide ((1 : Nat) ∈ b)) ≤ 1 :=
  (C2_flush_atomic { endpoint := "https://collect.example" } false false
      (initTransport Nat) [Op.enq 1, Op.doFlush, Op.enq 2] (by decide)).2.2.2.2.2 1

/-- C3: `enqueue` appends the record; if the batch then reaches the
configured threshold (default 10) it triggers an immediate flush, which
also cancels the pending timer; otherwise it arms the flush timer (default
5000 ms) only when none is armed, keeping an already armed one unchanged. -/
theorem C3_enqueue_policy {α : Type} (c : TrackerConfig) (hid bav : Bool)
    (now : Nat) (e : α) (s : TransportState α) :
    effBatchSize { endpoint := "" } = 10 ∧
    effFlushInterval { endpoint := "" } = 5000 ∧
    (effBatchSize c ≤ s.queue.length + 1 →
      enqueue c hid bav now e s =
        ({ queue := [], timer := none },
          some (s.queue ++ [e], selectMechanism c hid bav))) ∧
    (s.queue.length + 1 < effBatchSize c →
      (enqueue c hid bav now e s).1.queue = s.queue ++ [e] ∧
      (enqueue c hid bav now e s).2 = none ∧
      (∀ d, s.timer = some d → (enqueue c hid bav now e s).1.timer = some d) ∧
      (s.timer = none →
        (enqueue c hid bav now e s).1.timer = some (now + effFlushInterval c))) := by
  refine ⟨rfl, rfl, ?_, ?_⟩
  · intro h
    have h' : effBatchSize c ≤ (s.queue ++ [e]).length := by simpa using h
    simp only [enqueue]
    rw [if_pos h']
    simp [flush]
  · intro h
    have h' : ¬ effBatchSize c ≤ (s.queue ++ [e]).length := by
      simp only [List.length_append, List.length_singleton]
      omega
    simp only [enqueue]
    rw [if_neg h']
    refine ⟨scheduleFlush_queue c now _, rfl, ?_, ?_⟩
    · intro d hd
      simp [scheduleFlush, hd]
    · intro hd
      simp [scheduleFlush, hd]

/-- C3 witness: with batch size 1, a single enqueue flushes at once. -/
theorem C3_enqueue_policy_witness :
    enqueue { endpoint := "https://collect.example", batchSize := some 1 }
        false false 0 (7 : Nat) (initTransport Nat) =
      ({ queue := [], timer := none },
        some ([7], selectMechanism
          { endpoint := "https://collect.example", batchSize := some 1 } false false)) :=
  (C3_enqueue_policy { endpoint := "https://collect.example", batchSize := some 1 }
      false false 0 7 (initTransport Nat)).2.2.1 (by decide)

/-- C4: at flush time with a non-empty queue, the beacon path is taken
exactly when the page is hidden and sendBeacon is available; the beacon
carries a configured API key as the `apikey` query parameter on the URL
(the beacon mechanism has no header field at all); in every other case the
batch goes out as a fetch request marked keepalive. -/
theorem C4_delivery_path (c : TrackerConfig) (hid bav : Bool) {α : Type}
    (s : TransportState α) (h : s.queue ≠ []) :
    (flush c hid bav s).2 = some (s.queue, selectMechanism c hid bav) ∧
    (selectMechanism c hid bav = Mechanism.beacon (buildUrl c) ↔
      hid = true ∧ bav = true) ∧
    (∀ k, c.apiKey = some k → (buildUrl c).queryParams = [("apikey", k)]) ∧
    (c.apiKey = none → (buildUrl c).queryParams = []) ∧
    (¬(hid = true ∧ bav = true) →
      selectMechanism c hid bav = Mechanism.fetchReq c.endpoint (fetchHeaders c) true) := by
  refine ⟨?_, ?_, ?_, ?_, ?_⟩
  · have hq : ¬ s.queue.length = 0 := fun hl => h (List.length_eq_zero.mp hl)
    simp [flush, hq]
  · cases hid <;> cases bav <;> simp [selectMechanism]
  · intro k hk
    simp [buildUrl, hk]
  · intro hk
    simp [buildUrl, hk]
  · intro hnot
    cases hid <;> cases bav <;> simp_all [selectMechanism]

/-- C4 witness: a hidden page with sendBeacon available flushes the batch. -/
theorem C4_delivery_path_witness :
    (flush { endpoint := "https://collect.example", apiKey := some "K" } true true
        ({ queue := [0], timer := none } : TransportState Nat)).2 =
      some ([0], selectMechanism
        { endpoint := "https://collect.example", apiKey := some "K" } true true) :=
  (C4_delivery_path { endpoint := "https://collect.example", apiKey := some "K" }
      true true { queue := [0], timer := none } (by decide)).1

/-- C9: transport failures are swallowed — whatever the fetch or beacon
outcome, the send returns normally (no exception reaches the caller), the
post-flush transport state does not depend on the outcome, and the queue
is left empty: a failed batch is never retried or re-enqueued. -/
theorem C9_silent_failure {α : Type} (c : TrackerConfig)
    (hid bav debug : Bool) (s : TransportState α)
    (fo fo2 : FetchOutcome) (bo bo2 : BeaconOutcome) :
    (∃ logs, (flushAndSend c hid bav debug s fo bo).2 = Except.ok logs) ∧
    (flushAndSend c hid bav debug s fo bo).1 =
      (flushAndSend c hid bav debug s fo2 bo2).1 ∧
    (flushAndSend c hid bav debug s fo bo).1.queue = [] := by
  have hstate : ∀ fo' bo', (flushAndSend c hid bav debug s fo' bo').1 =
      (flush c hid bav s).1 := by
    intro fo' bo'
    rcases hr : (flush c hid bav s).2 with _ | ⟨b, m⟩
    · simp [flushAndSend, hr]
    · cases m <;> simp [flushAndSend, hr]
  refine ⟨?_, ?_, ?_⟩
  · rcases hr : (flush c hid bav s).2 with _ | ⟨b, m⟩
    · exact ⟨[], by simp [flushAndSend, hr]⟩
    · cases m with
      | beacon u => simpa [flushAndSend, hr] using sendViaBeacon_ok debug bo
      | fetchReq u hdrs keep => simpa [flushAndSend, hr] using sendViaFetch_ok debug fo
  · rw [hstate, hstate]
  · rw [hstate]
    exact flush_queue_empty c hid bav s

/-- Helper: on a trace with no candidate entries, `collectLCP` never moves
from a zero `lastValue` and never emits. -/
theorem lcpRun_no_candidate (evs : List VisEvent) (s : LCPState)
    (h0 : s.lastValue = 0) (hc : ∀ e ∈ evs, e.isCandidate = false) :
    lcpRun s evs = s := by
  induction evs generalizing s with
  | nil => rfl
  | cons e evs ih =>
    have he := hc e (by simp)
    have hrest : ∀ x ∈ evs, x.isCandidate = false := fun x hx => hc x (by simp [hx])
    have hrun : lcpRun s (e :: evs) = lcpRun (lcpStep s e) evs := rfl
    cases e with
    | lcpEntry t => simp [VisEvent.isCandidate] at he
    | visibilityHidden =>
      have hstep : lcpStep s VisEvent.visibilityHidden = s := by
        simp [lcpStep, lcpReportMetric, h0]
      rw [hrun, hstep]
      exact ih s h0 hrest
    | visibilityVisible =>
      have hstep : lcpStep s VisEvent.visibilityVisible = s := rfl
      rw [hrun, hstep]
      exact ih s h0 hrest
    | pagehide =>
      have hstep : lcpStep s VisEvent.pagehide = s := by
        simp [lcpStep, lcpReportMetric, h0]
      rw [hrun, hstep]
      exact ih s h0 hrest

/-- C5 counterexample: after one LCP candidate, a hidden visibility change
followed by pagehide makes `collectLCP` invoke its callback twice — the
listeners stay attached and there is no once-only guard, so the claimed
"at most once in total" fails. -/
theorem C5_counterexample :
    ((lcpRun lcpInit
        [VisEvent.lcpEntry 5, VisEvent.visibilityHidden,
          VisEvent.pagehide]).emitted.length = 2) ∧
    ¬ ((lcpRun lcpInit
        [VisEvent.lcpEntry 5, VisEvent.visibilityHidden,
          VisEvent.pagehide]).emitted.length ≤ 1) := by
  constructor <;> decide

/-- C5 amended: `collectLCP` emits at every hidden visibility change and
every pagehide event at which a positive candidate has been observed — in
particular at the first of these — and never emits on a trace with no
candidate entry; observer entries and returns to visibility never emit. -/
theorem C5_lcp_emission :
    (∀ evs : List VisEvent, evs.all (fun e => !e.isCandidate) = true →
      (lcpRun lcpInit evs).emitted = []) ∧
    (∀ s : LCPState,
      (lcpStep s VisEvent.visibilityHidden).emitted =
        s.emitted ++ (if 0 < s.lastValue then
          [{ name := "LCP", value := s.lastValue,
             rating := rateMetric "LCP" s.lastValue }] else []) ∧
      (lcpStep s VisEvent.pagehide).emitted =
        s.emitted ++ (if 0 < s.lastValue then
          [{ name := "LCP", value := s.lastValue,
             rating := rateMetric "LCP" s.lastValue }] else []) ∧
      (∀ t, (lcpStep s (VisEvent.lcpEntry t)).emitted = s.emitted) ∧
      (lcpStep s VisEvent.visibilityVisible).emitted = s.emitted) := by
  constructor
  · intro evs hc
    have hc' : ∀ e ∈ evs, e.isCandidate = false := by
      intro e he
      have := List.all_eq_true.mp hc e he
      simpa using this
    rw [lcpRun_no_candidate evs lcpInit rfl hc']
    rfl
  · intro s
    refine ⟨?_, ?_, fun t => rfl, rfl⟩ <;>
      by_cases hv : 0 < s.lastValue <;>
        simp [lcpStep, lcpReportMetric, hv]

/-- C5 amended witness: a hidden transition with no candidate emits
nothing. -/
theorem C5_lcp_emission_witness :
    (lcpRun lcpInit [VisEvent.visibilityHidden, VisEvent.pagehide]).emitted = [] :=
  C5_lcp_emission.1 [VisEvent.visibilityHidden, VisEvent.pagehide] (by decide)

/-- C6: the code at the failing input. Starting at pathname `/`, two
route-change notifications both landing on `/a`, the second arriving
before the first one's 100 ms deferred `trackPageView` has updated
`lastPathname`, both pass the staleness check, so two `PageView` records
for `/a` are emitted (after the initial one for `/`) — not one. -/
theorem C6_duplicate_pageview :
    (navRun (navInit "/")
        [NavAction.notif "/a", NavAction.notif "/a",
          NavAction.fireDeferred, NavAction.fireDeferred]).emitted
      = ["/", "/a", "/a"] := by
  decide

/-- Helper: `truncate` can exceed its bound by the three-character
ellipsis, but never by more. -/
theorem truncate_length_le (str : List Char) (m : Nat) :
    (truncate str m).length ≤ m + 3 := by
  unfold truncate
  by_cases h : str.length ≤ m
  · rw [if_pos h]
    omega
  · rw [if_neg h]
    simp only [List.length_append, List.length_take, List.length_cons, List.length_nil]
    omega

/-- C7 counterexample: a 1001-character message is emitted with 1003
characters (`truncate` appends `...` after cutting), exceeding the claimed
1000-character bound. -/
theorem C7_counterexample :
    (buildErrorRecord (List.replicate 1001 'a') none).message.length = 1003 ∧
    ¬ ((buildErrorRecord (List.replicate 1001 'a') none).message.length ≤ 1000) := by
  have hne : ¬ ((List.replicate 1001 'a').isEmpty = true) := by
    simp [List.isEmpty_iff]
  have hgen : ∀ msg : List Char, ∀ stack : Option (List Char),
      (buildErrorRecord msg stack).message
        = truncate (if msg.isEmpty then unknownErrorMessage else msg) 1000 :=
    fun _ _ => rfl
  have hmsg : (buildErrorRecord (List.replicate 1001 'a') none).message
      = truncate (List.replicate 1001 'a') 1000 := by
    rw [hgen, if_neg hne]
  have hlen : (buildErrorRecord (List.replicate 1001 'a') none).message.length = 1003 := by
    rw [hmsg, truncate, if_neg (by rw [List.length_replicate]; omega)]
    simp only [List.length_append, List.length_take, List.length_replicate,
      List.length_cons, List.length_nil]
    omega
  exact ⟨hlen, by omega⟩

/-- C7 amended: every emitted Error record's message has at most 1003
characters (the 1000-character cut plus the `...` suffix) and its stack,
when present, at most 2003. -/
theorem C7_truncation_bound (message : List Char) (stack : Option (List Char)) :
    (buildErrorRecord message stack).message.length ≤ 1003 ∧
    ∀ st, (buildErrorRecord message stack).stack = some st → st.length ≤ 2003 := by
  constructor
  · simpa [buildErrorRecord] using
      truncate_length_le (if message.isEmpty then unknownErrorMessage else message) 1000
  · intro st hst
    rcases stack with _ | s0
    · simp [buildErrorRecord] at hst
    · by_cases h0 : s0.isEmpty = true
      · simp [buildErrorRecord, h0] at hst
      · have hst' : truncate s0 2000 = st := by
          simpa [buildErrorRecord, h0] using hst
        rw [← hst']
        exact truncate_length_le s0 2000

/-- C7 amended witness: a short message and stack stay within the bounds. -/
theorem C7_truncation_bound_witness :
    (buildErrorRecord ['a'] (some ['b'])).message.length ≤ 1003 ∧
    (['b'] : List Char).length ≤ 2003 :=
  ⟨(C7_truncation_bound ['a'] (some ['b'])).1,
    (C7_truncation_bound ['a'] (some ['b'])).2 ['b'] (by decide)⟩

/-- C1: layout shifts at 0, 800, 1700, 2600 and 6000 ms with equal
positive value `v` and no recent input are partitioned into exactly the
two session windows `[0, 800, 1700, 2600]` and `[6000]`; the finalized CLS
is the maximum of the two window sums — four times the shift value — and
the collector emits it; it is not the total of all shifts. -/
theorem C1_cls_windowing (v : ℚ) (hv : 0 < v) :
    let entries : List ShiftEntry :=
      [⟨0, v, false⟩, ⟨800, v, false⟩, ⟨1700, v, false⟩, ⟨2600, v, false⟩,
        ⟨6000, v, false⟩]
    let s := clsRun clsInit entries
    (s.closedWindows ++ [s.sessionEntries]).map (List.map ShiftEntry.startTime)
        = [[0, 800, 1700, 2600], [6000]] ∧
    (s.closedWindows ++ [s.sessionEntries]).map windowSum = [4 * v, v] ∧
    clsFinalValue s = max (4 * v) v ∧
    max (4 * v) v = 4 * v ∧
    clsReportMetric s = some { name := "CLS", value := clsFinalValue s,
                               rating := rateMetric "CLS" (clsFinalValue s) } ∧
    clsFinalValue s ≠ windowSum entries := by
  intro entries s
  have h4 : (0:ℚ) < 0 + v + v + v + v := by linarith
  have hs : s = { clsValue := 0 + v + v + v + v, sessionValue := 0 + v,
                  sessionEntries := [⟨6000, v, false⟩],
                  closedWindows := [[⟨0, v, false⟩, ⟨800, v, false⟩, ⟨1700, v, false⟩,
                    ⟨2600, v, false⟩]] } := by
    show clsRun clsInit entries = _
    show clsRun clsInit [⟨0, v, false⟩, ⟨800, v, false⟩, ⟨1700, v, false⟩,
      ⟨2600, v, false⟩, ⟨6000, v, false⟩] = _
    simp only [clsRun, List.foldl, clsStep, clsInit]
    norm_num [h4]
    intro h
    linarith
  have hfin : clsFinalValue s = 0 + v + v + v + v := by
    rw [hs, clsFinalValue]
    norm_num
    intro h
    linarith
  refine ⟨?_, ?_, ?_, max_eq_left (by linarith), ?_, ?_⟩
  · rw [hs]
    simp
  · rw [hs]
    simp only [windowSum, List.map_cons, List.map_nil, List.cons_append,
      List.nil_append, List.sum_cons, List.sum_nil, List.map]
    rw [show v + (v + (v + (v + 0))) = 4 * v by ring, show v + 0 = v by ring]
  · rw [hfin, max_eq_left (by linarith)]
    ring
  · have hpos : 0 < clsFinalValue s := by
      rw [hfin]
      linarith
    rw [clsReportMetric, if_pos hpos]
  · rw [hfin]
    show ¬ (0 + v + v + v + v = windowSum [⟨0, v, false⟩, ⟨800, v, false⟩,
      ⟨1700, v, false⟩, ⟨2600, v, false⟩, ⟨6000, v, false⟩])
    simp only [windowSum, List.map_cons, List.map_nil, List.sum_cons, List.sum_nil]
    intro heq
    have : v = 0 := by linarith
    linarith

/-- C1 witness: the windowing at shift value 1. -/
theorem C1_cls_windowing_witness :
    clsReportMetric (clsRun clsInit
        [⟨0, 1, false⟩, ⟨800, 1, false⟩, ⟨1700, 1, false⟩, ⟨2600, 1, false⟩,
          ⟨6000, 1, false⟩])
      = some { name := "CLS",
               value := clsFinalValue (clsRun clsInit
                 [⟨0, 1, false⟩, ⟨800, 1, false⟩, ⟨1700, 1, false⟩, ⟨2600, 1, false⟩,
                   ⟨6000, 1, false⟩]),
               rating := rateMetric "CLS" (clsFinalValue (clsRun clsInit
                 [⟨0, 1, false⟩, ⟨800, 1, false⟩, ⟨1700, 1, false⟩, ⟨2600, 1, false⟩,
                   ⟨6000, 1, false⟩])) } :=
  (C1_cls_windowing 1 (by norm_num)).2.2.2.2.1

/-- Helper: with DNT honored and nothing queued, every tracker operation
leaves the tracker dormant and emits nothing. -/
theorem trackerRun_dormant (opts : TrackerOptions) (env : BrowserEnv)
    (c : TrackerConfig) (hdnt : env.dntEnabled = true)
    (hrespect : opts.respectDNT = true) (ops : List TrackerOp) (s : TrackerState)
    (h1 : s.initialized = false) (h2 : s.transport.queue = []) :
    (trackerRun opts env c s ops).1.initialized = false ∧
    (trackerRun opts env c s ops).1.collectors = s.collectors ∧
    (trackerRun opts env c s ops).1.transport.queue = [] ∧
    (trackerRun opts env c s ops).2 = [] := by
  induction ops generalizing s with
  | nil => exact ⟨h1, rfl, h2, rfl⟩
  | cons op ops ih =>
    obtain ⟨s', hstep, hi, hc, hq⟩ :
        ∃ s', trackerStep opts env c s op = (s', []) ∧ s'.initialized = false ∧
          s'.collectors = s.collectors ∧ s'.transport.queue = [] := by
      cases op with
      | initOp path =>
        by_cases hb : env.isBrowser
        · exact ⟨s, by simp [trackerStep, trackerInit, hb, h1, hrespect, hdnt],
            h1, rfl, h2⟩
        · exact ⟨s, by simp [trackerStep, trackerInit, hb], h1, rfl, h2⟩
      | trackEventOp n =>
        exact ⟨s, by simp [trackerStep, trackEvent, h1], h1, rfl, h2⟩
      | trackPageViewOp p =>
        exact ⟨s, by simp [trackerStep, trackPageViewManual, h1], h1, rfl, h2⟩
      | flushOp =>
        refine ⟨{ s with transport := (flush c env.hidden env.beaconAvail s.transport).1 },
          ?_, h1, rfl, flush_queue_empty c env.hidden env.beaconAvail s.transport⟩
        have hlen : s.transport.queue.length = 0 := by rw [h2]; rfl
        simp [trackerStep, trackerFlush, flush, hlen, batchesOf]
      | pageHiddenOp =>
        refine ⟨{ s with transport := (flush c env.hidden env.beaconAvail s.transport).1 },
          ?_, h1, rfl, flush_queue_empty c env.hidden env.beaconAvail s.transport⟩
        have hlen : s.transport.queue.length = 0 := by rw [h2]; rfl
        simp [trackerStep, trackerFlush, flush, hlen, batchesOf]
    have ihr := ih s' hi hq
    have hrun : trackerRun opts env c s (op :: ops)
        = ((trackerRun opts env c s' ops).1, [] ++ (trackerRun opts env c s' ops).2) := by
      simp [trackerRun, hstep]
    rw [hrun]
    exact ⟨ihr.1, by rw [ihr.2.1, hc], ihr.2.2.1, by simp [ihr.2.2.2]⟩

/-- C8: with the respect-DNT flag at its default (on) and the browser
reporting Do Not Track, `init` installs no collector and never sets the
initialized flag, and over any sequence of init, manual trackEvent and
trackPageView, flush and page-hidden operations, the queue stays empty and
no batch is ever handed to delivery — no network send occurs. -/
theorem C8_dnt_honored (opts : TrackerOptions) (env : BrowserEnv)
    (c : TrackerConfig) (ops : List TrackerOp)
    (hrespect : opts.respectDNT = true) (hdnt : env.dntEnabled = true) :
    (trackerRun opts env c trackerStart ops).1.initialized = false ∧
    (trackerRun opts env c trackerStart ops).1.collectors = [] ∧
    (trackerRun opts env c trackerStart ops).1.transport.queue = [] ∧
    (trackerRun opts env c trackerStart ops).2 = [] := by
  have h := trackerRun_dormant opts env c hdnt hrespect ops trackerStart rfl rfl
  exact ⟨h.1, by rw [h.2.1]; rfl, h.2.2.1, h.2.2.2⟩

/-- C8 witness: a concrete DNT run with init, a manual event and a flush. -/
theorem C8_dnt_honored_witness :
    (trackerRun {}
        { isBrowser := true, dntEnabled := true, hidden := false, beaconAvail := false }
        { endpoint := "https://collect.example" } trackerStart
        [TrackerOp.initOp "/", TrackerOp.trackEventOp "click",
          TrackerOp.trackPageViewOp "/x", TrackerOp.flushOp, TrackerOp.pageHiddenOp]).2
      = [] :=
  (C8_dnt_honored {}
      { isBrowser := true, dntEnabled := true, hidden := false, beaconAvail := false }
      { endpoint := "https://collect.example" }
      [TrackerOp.initOp "/", TrackerOp.trackEventOp "click",
        TrackerOp.trackPageViewOp "/x", TrackerOp.flushOp, TrackerOp.pageHiddenOp]
      rfl rfl).2.2.2

/-- C10: every emitted web-vital value is strictly positive for LCP, CLS
and INP and non-negative for TTFB — the finalizers suppress emission when
the accumulated value is zero (negative for TTFB); in particular a page
with no layout shifts emits no CLS record at all. -/
theorem C10_positive_vitals :
    (∀ v m, lcpReportMetric v = some m → 0 < m.value) ∧
    (∀ s m, clsReportMetric s = some m → 0 < m.value) ∧
    (∀ d m, inpReportMetric d = some m → 0 < m.value) ∧
    (∀ a b m, ttfbReportMetric a b = some m → 0 ≤ m.value) ∧
    clsReportMetric (clsRun clsInit []) = none := by
  refine ⟨?_, ?_, ?_, ?_, ?_⟩
  · intro v m hm
    by_cases hv : 0 < v
    · rw [lcpReportMetric, if_pos hv, Option.some.injEq] at hm
      rw [← hm]
      exact hv
    · rw [lcpReportMetric, if_neg hv] at hm
      exact absurd hm (by simp)
  · intro s m hm
    by_cases hv : 0 < clsFinalValue s
    · rw [clsReportMetric, if_pos hv, Option.some.injEq] at hm
      rw [← hm]
      exact hv
    · rw [clsReportMetric, if_neg hv] at hm
      exact absurd hm (by simp)
  · intro d m hm
    by_cases hv : 0 < d
    · rw [inpReportMetric, if_pos hv, Option.some.injEq] at hm
      rw [← hm]
      exact hv
    · rw [inpReportMetric, if_neg hv] at hm
      exact absurd hm (by simp)
  · intro a b m hm
    by_cases hv : 0 ≤ a - b
    · rw [ttfbReportMetric] at hm
      simp only [hv, if_pos, Option.some.injEq] at hm
      rw [← hm]
      exact hv
    · simp [ttfbReportMetric, hv] at hm
  · have h0 : ¬ (0 : ℚ) < clsFinalValue (clsRun clsInit []) := by
      rw [clsFinalValue]
      norm_num [clsRun, clsInit]
    rw [clsReportMetric, if_neg h0]

/-- C10 witness: an LCP emission at value 5 is positive. -/
theorem C10_positive_vitals_witness :
    (0:ℚ) < ({ name := "LCP", value := 5, rating := Rating.good } : Metric).value :=
  C10_positive_vitals.1 5 { name := "LCP", value := 5, rating := Rating.good }
    (by decide)

end OpenObs
